import Mathlib

/-!
Verification of the JioPay RAG chatbot core pipeline: a shallow embedding of
the embedding client (hf.ts), the similarity search (search.ts), the grounded
prompt builder (prompt.ts), and the chat orchestration (Chat.tsx), together
with theorems settling the specification claims about them.
-/

namespace JioPay

/-! ## Data model (types.ts) -/

/-- A unit of retrieved knowledge-base content, mirroring the TypeScript
type RetrievedChunk.  The free-form metadata payload is modelled as an
opaque string; similarity is a rational in the model. -/
structure RetrievedChunk where
  id : Int
  content : String
  source_url : Option String
  «section» : Option String
  topic : Option String
  token_count : Option Int
  chunk_method : String
  metadata : String
  similarity : ℚ
deriving DecidableEq, Repr

/-- Outcome of one retrieval call, mirroring the TypeScript type
SearchResult: the ordered chunk sequence, the search-stage latency, the
embedding-stage latency, and the requested count k.  Timestamps from
performance.now are modelled as rationals. -/
structure SearchResult where
  chunks : List RetrievedChunk
  latencyMs : ℚ
  embeddingMs : ℚ
  k : Nat
deriving DecidableEq, Repr

/-- A thrown JavaScript error value as the pipeline observes it: a message
and, for axios HTTP failures, the optional response status.  Errors built
with new Error carry no response status. -/
structure JsError where
  message : String
  responseStatus : Option Nat
deriving DecidableEq, Repr

/-! ## String helpers (model of JavaScript string primitives) -/

/-- Model of checking that a character list begins with a pattern. -/
def startsWithChars : List Char → List Char → Bool
  | _, [] => true
  | [], _ :: _ => false
  | a :: as, b :: bs => a == b && startsWithChars as bs

/-- Model of substring search over character lists. -/
def hasSubstr : List Char → List Char → Bool
  | [], pat => pat.isEmpty
  | a :: t, pat => startsWithChars (a :: t) pat || hasSubstr t pat

/-- Model of the JavaScript String.prototype.toLowerCase call, mapping the
character-wise lowercasing over the string. -/
def jsToLower (s : String) : String :=
  String.mk (s.toList.map Char.toLower)

/-- Model of the JavaScript String.prototype.includes test. -/
def strIncludes (s pat : String) : Bool :=
  hasSubstr s.toList pat.toList

/-! ## Embedding client (src/lib/hf.ts) -/

/-- Default primary embedding model identifier (env default in hf.ts). -/
def EMB_PRIMARY : String := "BAAI/bge-small-en-v1.5"

/-- Default fallback embedding model identifier (env default in hf.ts). -/
def EMB_FALLBACK : String := "sentence-transformers/all-MiniLM-L6-v2"

/-- Shallow embedding of authHeaders from hf.ts.  The HF token read from the
environment is modelled as an optional string; the JavaScript truthiness test
rejects both a missing token and an empty one, throwing a plain Error (which
carries no HTTP response status) before any network request is formed. -/
def authHeaders (tok : Option String) : Except JsError (String × String) :=
  match tok with
  | none => Except.error ⟨"Missing VITE_HF_TOKEN in .env", none⟩
  | some t =>
    if t = "" then Except.error ⟨"Missing VITE_HF_TOKEN in .env", none⟩
    else Except.ok ("Authorization", "Bearer " ++ t)

/-- Sum of squares of a vector, written as the source reduce over the list
with accumulator 0 (vec.reduce((s, v) => s + v * v, 0)). -/
def sumSq (vec : List ℝ) : ℝ :=
  vec.foldl (fun s v => s + v * v) 0

/-- Shallow embedding of l2norm from hf.ts over real vectors.  The source
computes Math.sqrt of the sum of squares and replaces a falsy (zero) norm
by 1 via the JavaScript or-default, then divides every entry by it. -/
noncomputable def l2norm (vec : List ℝ) : List ℝ :=
  let n := if Real.sqrt (sumSq vec) = 0 then 1 else Real.sqrt (sumSq vec)
  vec.map (fun v => v / n)

/-- Shallow embedding of formatQueryForEmbedding from hf.ts: lower-case the
model identifier, prepend the bge instruction prefix when it contains bge,
else the e5 prefix when it contains e5, else return the raw query. -/
def formatQueryForEmbedding (q modelId : String) : String :=
  let id := jsToLower modelId
  if strIncludes id "bge" then
    "Represent this sentence for searching relevant passages: " ++ q
  else if strIncludes id "e5" then
    "query: " ++ q
  else
    q

/-- Response body of an embedding request: the provider may return a batch
of vectors (data whose first element is an array) or a single flat vector.
Mirrors the Array.isArray test in embedWithModel. -/
inductive HFData where
  | batch : List (List ℝ) → HFData
  | flat : List ℝ → HFData

/-- Vector extraction from the response body, as in embedWithModel: when the
first element of the data is itself an array take it, otherwise treat the
whole data as the vector (an empty batch degrades to the empty vector, as
indexing an empty array yields undefined in JavaScript). -/
def pickVec : HFData → List ℝ
  | HFData.batch [] => []
  | HFData.batch (v :: _) => v
  | HFData.flat v => v

/-- Network oracle for axios.post against the HF inference endpoint: given
the model identifier and the request input it yields either a classified
failure or a response body. -/
def PostFn : Type :=
  String → String → Except JsError HFData

/-- Shallow embedding of embedWithModel from hf.ts, instrumented with the
list of model identifiers actually posted to over the network.  The auth
header is evaluated first, so a missing credential fails before any post;
a successful post has its vector extracted and L2-normalized. -/
noncomputable def embedWithModel (tok : Option String) (post : PostFn)
    (modelId input : String) : Except JsError (List ℝ) × List String :=
  match authHeaders tok with
  | Except.error e => (Except.error e, [])
  | Except.ok _ =>
    match post modelId input with
    | Except.error e => (Except.error e, [modelId])
    | Except.ok data => (Except.ok (l2norm (pickVec data)), [modelId])

/-- The status test guarding the fallback in embedQuery: the response status
of the primary failure must be 402, 403, 404 or 429. -/
def fallbackEligible (status : Option Nat) : Bool :=
  status == some 402 || status == some 403 || status == some 404 || status == some 429

/-- Shallow embedding of embedQuery from hf.ts, parameterized over the two
model identifiers read from the environment, and instrumented with the list
of models posted to.  The primary attempt runs first; on a failure whose
response status is fallback-eligible the whole flow is retried once against
the fallback model with the query re-formatted for it; any other failure,
and any fallback failure, propagates. -/
noncomputable def embedQuery (tok : Option String) (post : PostFn)
    (primaryId fallbackId : String) (query : String) :
    Except JsError (List ℝ) × List String :=
  match embedWithModel tok post primaryId (formatQueryForEmbedding query primaryId) with
  | (Except.ok v, log1) => (Except.ok v, log1)
  | (Except.error e, log1) =>
    if fallbackEligible e.responseStatus then
      match embedWithModel tok post fallbackId (formatQueryForEmbedding query fallbackId) with
      | (r2, log2) => (r2, log1 ++ log2)
    else
      (Except.error e, log1)

/-! ## Similarity search (src/lib/search.ts) -/

/-- An error record returned by the supabase rpc call, carrying a message. -/
structure RpcError where
  message : String
deriving DecidableEq, Repr

/-- Argument record of the jiopay_similarity_search rpc call, with the
filter fields the source always passes as null, zero or the empty object. -/
structure RpcParams where
  query_embedding : List ℝ
  match_count : Nat
  source_filter : Option String
  topic_filter : Option String
  content_type_filter : Option String
  min_similarity : ℚ
  metadata_filter : Unit

/-- Result record of the rpc call: optional data rows and optional error. -/
structure RpcResult where
  data : Option (List RetrievedChunk)
  error : Option RpcError

/-- Backend oracle for the vector-store similarity-search procedure. -/
def RpcFn : Type :=
  RpcParams → RpcResult

/-- Shallow embedding of semanticSearch from search.ts, instrumented with
the list of rpc calls issued.  The timestamps t0, t1, t2 model the three
performance.now readings.  The query is embedded, the rpc procedure invoked
once with the default filters, a backend error rethrown as a plain Error
carrying its message, and otherwise the rows (or the empty list) packaged
with both stage latencies and k. -/
noncomputable def semanticSearch (tok : Option String) (post : PostFn) (rpc : RpcFn)
    (t0 t1 t2 : ℚ) (query : String) (k : Nat) :
    Except JsError SearchResult × List RpcParams :=
  match (embedQuery tok post EMB_PRIMARY EMB_FALLBACK query).1 with
  | Except.error e => (Except.error e, [])
  | Except.ok emb =>
    let p : RpcParams := ⟨emb, k, none, none, none, 0, ()⟩
    let res := rpc p
    match res.error with
    | some err => (Except.error ⟨err.message, none⟩, [p])
    | none => (Except.ok ⟨res.data.getD [], t2 - t1, t1 - t0, k⟩, [p])

/-! ## Prompt builder (src/lib/prompt.ts) -/

/-- Shallow embedding of buildGroundedPrompt from prompt.ts.  Each context
block is rendered exactly as the template literal in the source: the
double-bracketed 1-based index, the chunk content, and a SOURCE line built
from the nullish-coalesced URL and the truthiness-guarded section tag.
The blocks, each ending in a newline, are joined with a newline and spliced
into the fixed instruction template. -/
def buildGroundedPrompt (userQuestion : String) (top : List RetrievedChunk) : String :=
  let context := String.intercalate "\n" (top.enum.map (fun p =>
    let url := p.2.source_url.getD ""
    let sec := match p.2.«section» with
      | some s => if s = "" then "" else " [" ++ s ++ "]"
      | none => ""
    "[[" ++ toString (p.1 + 1) ++ "]] " ++ p.2.content ++ "\nSOURCE: " ++ url ++ sec ++ "\n"))
  "You are a helpful assistant for JioPay.\nAnswer the question using ONLY the context.\nIf the answer is not in the context, say you don't know.\n\nQuestion:\n"
    ++ userQuestion
    ++ "\n\nContext:\n"
    ++ context
    ++ "\n\nInstructions:\n- Be concise (<= 6 sentences).\n- Cite sources inline using bracket numbers like [1], [2] matching the provided SOURCES.\n- Do not fabricate information.\n\nFinal Answer:"

/-! ## Chat orchestration (src/pages/Chat.tsx, the ask handler) -/

/-- Role of a conversation turn. -/
inductive Role where
  | user
  | assistant
deriving DecidableEq, Repr

/-- A conversation turn as kept in the Chat component state: role, display
text, and for assistant turns optionally the chunks shown as citations. -/
structure Message where
  role : Role
  text : String
  citations : Option (List RetrievedChunk)
deriving DecidableEq, Repr

/-- Model of the JavaScript String.prototype.trim call used by the ask
handler, stripping whitespace from both ends of the string. -/
def jsTrim (s : String) : String :=
  String.mk (((s.toList.dropWhile Char.isWhitespace).reverse.dropWhile Char.isWhitespace).reverse)

/-- Display text of a caught error, modelling the template interpolation of
(e?.message || e) for Error instances: the message when it is truthy, and
the string conversion of a message-less Error otherwise. -/
def errDisplay (e : JsError) : String :=
  if e.message = "" then "Error" else e.message

/-- Oracle for generateAnswer: the generation backend maps a prompt to a
trimmed answer text or a failure. -/
def GenFn : Type :=
  String → Except JsError String

/-- Shallow embedding of the ask handler in Chat.tsx, restricted to the
conversation state it appends to.  A blank query is ignored; otherwise the
trimmed user turn is appended, retrieval, prompt composition and generation
run in sequence, and either the answer with its citations or the caught
failure text (with no citations) is appended as the assistant turn. -/
noncomputable def ask (tok : Option String) (post : PostFn) (rpc : RpcFn) (generate : GenFn)
    (t0 t1 t2 : ℚ) (k : Nat) (q : String) (msgs : List Message) : List Message :=
  if jsTrim q = "" then msgs
  else
    let msgs1 := msgs ++ [⟨Role.user, (jsTrim q), none⟩]
    match (semanticSearch tok post rpc t0 t1 t2 (jsTrim q) k).1 with
    | Except.error e =>
      msgs1 ++ [⟨Role.assistant, "Sorry, something went wrong:\n" ++ errDisplay e, none⟩]
    | Except.ok sr =>
      match generate (buildGroundedPrompt (jsTrim q) sr.chunks) with
      | Except.error e =>
        msgs1 ++ [⟨Role.assistant, "Sorry, something went wrong:\n" ++ errDisplay e, none⟩]
      | Except.ok answer =>
        msgs1 ++ [⟨Role.assistant, answer, some sr.chunks⟩]

/-! ## Claim-side renderings of the grounded prompt

The following definitions follow the words of claim C1 about the context
blocks of the grounded prompt, to be compared with buildGroundedPrompt.
-/

/-- URL part of the source line as claim C1 words it: the chunk URL, the
empty string when source_url is absent. -/
def claimUrlText (c : RetrievedChunk) : String :=
  match c.source_url with
  | some u => u
  | none => ""

/-- Section part of the source line as claim C1 words it: when the section
is present, the section name in square brackets; nothing otherwise. -/
def claimSectionTag (c : RetrievedChunk) : String :=
  match c.«section» with
  | some s => " [" ++ s ++ "]"
  | none => ""

/-- One numbered context block as claim C1 words it: the bracketed index
marker, the chunk full content text, and the source line composed of the
URL part followed by the section part. -/
def claimContextBlock (idx : Nat) (c : RetrievedChunk) : String :=
  "[[" ++ toString idx ++ "]] " ++ c.content ++ "\nSOURCE: "
    ++ claimUrlText c ++ claimSectionTag c ++ "\n"

/-- Whole prompt as claim C1 describes it: one numbered context block per
chunk, in input order with 1-based indices, spliced into the instruction
template. -/
def claimPrompt (q : String) (chunks : List RetrievedChunk) : String :=
  "You are a helpful assistant for JioPay.\nAnswer the question using ONLY the context.\nIf the answer is not in the context, say you don't know.\n\nQuestion:\n"
    ++ q
    ++ "\n\nContext:\n"
    ++ String.intercalate "\n" (chunks.enum.map (fun p => claimContextBlock (p.1 + 1) p.2))
    ++ "\n\nInstructions:\n- Be concise (<= 6 sentences).\n- Cite sources inline using bracket numbers like [1], [2] matching the provided SOURCES.\n- Do not fabricate information.\n\nFinal Answer:"

/-- Section part of the source line as the amended claim C1 words it: when
the section is present and non-empty, the section name in square brackets;
nothing otherwise. -/
def claimSectionTagAmended (c : RetrievedChunk) : String :=
  match c.«section» with
  | some s => if s = "" then "" else " [" ++ s ++ "]"
  | none => ""

/-- One numbered context block as the amended claim C1 words it. -/
def claimContextBlockAmended (idx : Nat) (c : RetrievedChunk) : String :=
  "[[" ++ toString idx ++ "]] " ++ c.content ++ "\nSOURCE: "
    ++ claimUrlText c ++ claimSectionTagAmended c ++ "\n"

/-- Whole prompt as the amended claim C1 describes it. -/
def claimPromptAmended (q : String) (chunks : List RetrievedChunk) : String :=
  "You are a helpful assistant for JioPay.\nAnswer the question using ONLY the context.\nIf the answer is not in the context, say you don't know.\n\nQuestion:\n"
    ++ q
    ++ "\n\nContext:\n"
    ++ String.intercalate "\n" (chunks.enum.map (fun p => claimContextBlockAmended (p.1 + 1) p.2))
    ++ "\n\nInstructions:\n- Be concise (<= 6 sentences).\n- Cite sources inline using bracket numbers like [1], [2] matching the provided SOURCES.\n- Do not fabricate information.\n\nFinal Answer:"

/-! ## Helper lemmas -/

/-- Helper: the context block rendered by buildGroundedPrompt coincides with
the amended claim-side block for every index and chunk. -/
theorem contextBlock_eq_amended (i : Nat) (c : RetrievedChunk) :
    (let url := c.source_url.getD ""
     let sec := match c.«section» with
       | some s => if s = "" then "" else " [" ++ s ++ "]"
       | none => ""
     "[[" ++ toString (i + 1) ++ "]] " ++ c.content ++ "\nSOURCE: " ++ url ++ sec ++ "\n")
      = claimContextBlockAmended (i + 1) c := by
  rcases c with ⟨cid, content, su, sec, top, tc, cm, md, sim⟩
  rcases su with _ | u <;> rcases sec with _ | s <;> rfl

/-! ## Claim C1 -/

set_option maxRecDepth 16384 in
/-- Claim C1 counterexample: on a chunk whose section is present but empty,
buildGroundedPrompt omits the bracketed section tag, so the rendered prompt
differs from the claim-side rendering that brackets every present section. -/
theorem buildGroundedPrompt_section_empty_breaks_claim :
    buildGroundedPrompt "q" [⟨1, "c", none, some "", none, none, "m", "", 0⟩]
      ≠ claimPrompt "q" [⟨1, "c", none, some "", none, none, "m", "", 0⟩] := by
  decide

/-- Claim C1 (amended): for every question and every chunk sequence,
buildGroundedPrompt renders one numbered context block per chunk in input
order with 1-based indices, each block being the bracketed index marker,
the full chunk content, and a source line of the URL (empty string when
source_url is absent) followed, when the section is present and non-empty,
by the section name in square brackets; citation index i thus corresponds
to the chunk at position i-1 of the input sequence. -/
theorem buildGroundedPrompt_renders_claim_blocks_amended
    (q : String) (chunks : List RetrievedChunk) :
    buildGroundedPrompt q chunks = claimPromptAmended q chunks := by
  simp only [buildGroundedPrompt, claimPromptAmended]
  congr 2
  refine congrArg (String.intercalate "\n") (List.map_congr_left ?_)
  rintro ⟨i, c⟩ -
  exact contextBlock_eq_amended i c

/-! ## Claim C4 -/

/-- Claim C4: the query-formatting function prepends the bge instruction
prefix when the lower-cased identifier contains bge, else prepends the e5
prefix when it contains e5, and otherwise returns the raw query. -/
theorem formatQueryForEmbedding_model_families (q modelId : String) :
    (strIncludes (jsToLower modelId) "bge" = true →
      formatQueryForEmbedding q modelId
        = "Represent this sentence for searching relevant passages: " ++ q)
    ∧ (strIncludes (jsToLower modelId) "bge" = false →
        strIncludes (jsToLower modelId) "e5" = true →
        formatQueryForEmbedding q modelId = "query: " ++ q)
    ∧ (strIncludes (jsToLower modelId) "bge" = false →
        strIncludes (jsToLower modelId) "e5" = false →
        formatQueryForEmbedding q modelId = q) := by
  refine ⟨fun h => ?_, fun h1 h2 => ?_, fun h1 h2 => ?_⟩
  · simp [formatQueryForEmbedding, h]
  · simp [formatQueryForEmbedding, h1, h2]
  · simp [formatQueryForEmbedding, h1, h2]

/-- Witness for claim C4 at the three concrete model identifiers. -/
theorem formatQueryForEmbedding_model_families_witness :
    (strIncludes (jsToLower "BAAI/bge-small-en-v1.5") "bge" = true
      ∧ formatQueryForEmbedding "hello" "BAAI/bge-small-en-v1.5"
          = "Represent this sentence for searching relevant passages: " ++ "hello")
    ∧ (strIncludes (jsToLower "intfloat/e5-base-v2") "bge" = false
      ∧ strIncludes (jsToLower "intfloat/e5-base-v2") "e5" = true
      ∧ formatQueryForEmbedding "hello" "intfloat/e5-base-v2" = "query: " ++ "hello")
    ∧ (strIncludes (jsToLower "sentence-transformers/all-MiniLM-L6-v2") "bge" = false
      ∧ strIncludes (jsToLower "sentence-transformers/all-MiniLM-L6-v2") "e5" = false
      ∧ formatQueryForEmbedding "hello" "sentence-transformers/all-MiniLM-L6-v2" = "hello") := by
  refine ⟨⟨by decide, (formatQueryForEmbedding_model_families "hello" _).1 (by decide)⟩,
    ⟨by decide, by decide,
      (formatQueryForEmbedding_model_families "hello" _).2.1 (by decide) (by decide)⟩,
    by decide, by decide,
    (formatQueryForEmbedding_model_families "hello" _).2.2 (by decide) (by decide)⟩

/-! ## Claim C7 -/

/-- Claim C7: when the access credential is absent (or blank, which the
truthiness test also rejects), authHeaders yields the distinguishable
configuration error and every embedding call fails with it before any
network post is made: the result holds for every network oracle and the
posted-model log is empty. -/
theorem missing_credential_fails_fast (tok : Option String)
    (h : tok = none ∨ tok = some "") :
    authHeaders tok = Except.error ⟨"Missing VITE_HF_TOKEN in .env", none⟩
    ∧ ∀ (post : PostFn) (m i : String),
        embedWithModel tok post m i
          = (Except.error ⟨"Missing VITE_HF_TOKEN in .env", none⟩, []) := by
  rcases h with h | h <;> subst h <;> exact ⟨rfl, fun post m i => rfl⟩

/-- Witness for claim C7 with the credential absent and a concrete oracle. -/
theorem missing_credential_fails_fast_witness :
    authHeaders none = Except.error ⟨"Missing VITE_HF_TOKEN in .env", none⟩
    ∧ embedWithModel none (fun _ _ => Except.ok (HFData.flat [1])) "m" "i"
        = (Except.error ⟨"Missing VITE_HF_TOKEN in .env", none⟩, []) :=
  ⟨(missing_credential_fails_fast none (Or.inl rfl)).1,
    (missing_credential_fails_fast none (Or.inl rfl)).2
      (fun _ _ => Except.ok (HFData.flat [1])) "m" "i"⟩

/-! ## Claim C9 -/

/-- Claim C9: with the credential absent, embedQuery propagates the
configuration error of the first attempt for every network oracle; the
posted-model log is empty, so no provider (in particular not the fallback)
is ever invoked, and the thrown error carries no response status, which
matches none of the fallback-eligible classes. -/
theorem embedQuery_missing_credential_no_fallback (post : PostFn) (pId fId q : String) :
    embedQuery none post pId fId q
      = (Except.error ⟨"Missing VITE_HF_TOKEN in .env", none⟩, [])
    ∧ (JsError.mk "Missing VITE_HF_TOKEN in .env" none).responseStatus = none
    ∧ fallbackEligible none = false :=
  ⟨rfl, rfl, rfl⟩

/-! ## Claim C8 -/

/-- Claim C8: buildGroundedPrompt is deterministic; identical question and
chunk inputs yield identical prompt text.  Purity holds by construction:
the embedding is a total function of its two arguments alone. -/
theorem buildGroundedPrompt_deterministic (q1 q2 : String)
    (c1 c2 : List RetrievedChunk) (hq : q1 = q2) (hc : c1 = c2) :
    buildGroundedPrompt q1 c1 = buildGroundedPrompt q2 c2 := by
  rw [hq, hc]

/-- Witness for claim C8 at a concrete input pair. -/
theorem buildGroundedPrompt_deterministic_witness :
    buildGroundedPrompt "What is KYC?" [] = buildGroundedPrompt "What is KYC?" [] :=
  buildGroundedPrompt_deterministic "What is KYC?" "What is KYC?" [] [] rfl rfl

/-! ## Claim C10 -/

/-- Claim C10: on the empty chunk sequence buildGroundedPrompt returns the
complete instruction template with an empty context block, for every
question. -/
theorem buildGroundedPrompt_empty_chunks (q : String) :
    buildGroundedPrompt q []
      = "You are a helpful assistant for JioPay.\nAnswer the question using ONLY the context.\nIf the answer is not in the context, say you don't know.\n\nQuestion:\n"
        ++ q
        ++ "\n\nContext:\n\n\nInstructions:\n- Be concise (<= 6 sentences).\n- Cite sources inline using bracket numbers like [1], [2] matching the provided SOURCES.\n- Do not fabricate information.\n\nFinal Answer:" := by
  have h1 : buildGroundedPrompt q []
      = "You are a helpful assistant for JioPay.\nAnswer the question using ONLY the context.\nIf the answer is not in the context, say you don't know.\n\nQuestion:\n"
        ++ q
        ++ "\n\nContext:\n"
        ++ ""
        ++ "\n\nInstructions:\n- Be concise (<= 6 sentences).\n- Cite sources inline using bracket numbers like [1], [2] matching the provided SOURCES.\n- Do not fabricate information.\n\nFinal Answer:" := rfl
  rw [h1, String.append_empty, String.append_assoc]
  rfl

/-! ## Claim C2 -/

/-- Claim C2: embedQuery tries the primary provider first; exactly when the
primary failure carries one of the fallback-eligible response statuses
(402 payment-required, 403 forbidden, 404 not-found, 429 rate-limited) it
makes one fallback attempt against the secondary model with the raw query
re-formatted for that model identifier; any other primary failure, and any
failure of the fallback attempt itself, propagates unchanged. -/
theorem embedQuery_fallback_policy (tok : Option String) (post : PostFn) (pId fId q : String) :
    (∀ (v : List ℝ) (log1 : List String),
      embedWithModel tok post pId (formatQueryForEmbedding q pId) = (Except.ok v, log1) →
      embedQuery tok post pId fId q = (Except.ok v, log1))
    ∧ (∀ (e : JsError) (log1 : List String),
        embedWithModel tok post pId (formatQueryForEmbedding q pId) = (Except.error e, log1) →
        (fallbackEligible e.responseStatus = true →
          embedQuery tok post pId fId q
            = ((embedWithModel tok post fId (formatQueryForEmbedding q fId)).1,
                log1 ++ (embedWithModel tok post fId (formatQueryForEmbedding q fId)).2))
        ∧ (fallbackEligible e.responseStatus = false →
          embedQuery tok post pId fId q = (Except.error e, log1)))
    ∧ (∀ st : Option Nat,
        fallbackEligible st = true
          ↔ st = some 402 ∨ st = some 403 ∨ st = some 404 ∨ st = some 429) := by
  refine ⟨fun v log1 h => ?_, fun e log1 h => ⟨fun hb => ?_, fun hb => ?_⟩, fun st => ?_⟩
  · simp [embedQuery, h]
  · rcases hf : embedWithModel tok post fId (formatQueryForEmbedding q fId) with ⟨r2, log2⟩
    simp [embedQuery, h, hf, hb]
  · simp [embedQuery, h, hb]
  · rcases st with _ | n
    · simp [fallbackEligible]
    · simp only [fallbackEligible, Option.some.injEq]
      constructor
      · intro hb
        rcases Bool.or_eq_true_iff.mp hb with hb | hb4
        · rcases Bool.or_eq_true_iff.mp hb with hb | hb3
          · rcases Bool.or_eq_true_iff.mp hb with hb1 | hb2
            · exact Or.inl (by simpa using hb1)
            · exact Or.inr (Or.inl (by simpa using hb2))
          · exact Or.inr (Or.inr (Or.inl (by simpa using hb3)))
        · exact Or.inr (Or.inr (Or.inr (by simpa using hb4)))
      · intro hn
        rcases hn with h | h | h | h <;> simp [h]

/-- Witness for claim C2: a rate-limited primary failure at a concrete
oracle triggers exactly the re-formatted fallback attempt. -/
theorem embedQuery_fallback_policy_witness :
    fallbackEligible (JsError.mk "rate limited" (some 429)).responseStatus = true
    ∧ embedQuery (some "t")
        (fun m _ => if m == EMB_PRIMARY then Except.error ⟨"rate limited", some 429⟩
          else Except.ok (HFData.flat [3, 4]))
        EMB_PRIMARY EMB_FALLBACK "hello"
        = ((embedWithModel (some "t")
              (fun m _ => if m == EMB_PRIMARY then Except.error ⟨"rate limited", some 429⟩
                else Except.ok (HFData.flat [3, 4]))
              EMB_FALLBACK (formatQueryForEmbedding "hello" EMB_FALLBACK)).1,
            [EMB_PRIMARY] ++ (embedWithModel (some "t")
              (fun m _ => if m == EMB_PRIMARY then Except.error ⟨"rate limited", some 429⟩
                else Except.ok (HFData.flat [3, 4]))
              EMB_FALLBACK (formatQueryForEmbedding "hello" EMB_FALLBACK)).2) :=
  ⟨rfl,
    ((embedQuery_fallback_policy (some "t")
        (fun m _ => if m == EMB_PRIMARY then Except.error ⟨"rate limited", some 429⟩
          else Except.ok (HFData.flat [3, 4]))
        EMB_PRIMARY EMB_FALLBACK "hello").2.1
      ⟨"rate limited", some 429⟩ [EMB_PRIMARY] rfl).1 rfl⟩

/-! ## Claim C3 -/

/-- Helper: folding the squared-sum step from any accumulator equals the
accumulator plus the squared sum. -/
theorem sumSq_foldl (t : List ℝ) (a : ℝ) :
    t.foldl (fun s v => s + v * v) a = a + sumSq t := by
  induction t generalizing a with
  | nil => simp [sumSq]
  | cons x t ih =>
    have hx : sumSq (x :: t) = 0 + x * x + sumSq t := by
      have h1 : sumSq (x :: t) = t.foldl (fun s v => s + v * v) (0 + x * x) := rfl
      rw [h1, ih]
    simp only [List.foldl_cons]
    rw [ih, hx]
    ring

/-- Helper: squared sum of a cons. -/
theorem sumSq_cons (x : ℝ) (t : List ℝ) : sumSq (x :: t) = x * x + sumSq t := by
  calc sumSq (x :: t) = t.foldl (fun s v => s + v * v) (0 + x * x) := rfl
    _ = (0 + x * x) + sumSq t := sumSq_foldl t (0 + x * x)
    _ = x * x + sumSq t := by ring

/-- Helper: the squared sum is nonnegative. -/
theorem sumSq_nonneg (v : List ℝ) : 0 ≤ sumSq v := by
  induction v with
  | nil => simp [sumSq]
  | cons x t ih => rw [sumSq_cons]; exact add_nonneg (mul_self_nonneg x) ih

/-- Helper: squared sum of an entrywise division. -/
theorem sumSq_map_div (v : List ℝ) (n : ℝ) (hn : n ≠ 0) :
    sumSq (v.map (fun x => x / n)) = sumSq v / (n * n) := by
  induction v with
  | nil => simp [sumSq]
  | cons x t ih =>
    rw [List.map_cons, sumSq_cons, sumSq_cons, ih]
    field_simp

/-- Helper: every successful embedWithModel call returns an output of
l2norm. -/
theorem embedWithModel_ok_shape (tok : Option String) (post : PostFn) (m i : String)
    (v : List ℝ) (log : List String)
    (h : embedWithModel tok post m i = (Except.ok v, log)) :
    ∃ raw, v = l2norm raw := by
  rcases ha : authHeaders tok with e | hdr
  · rw [show embedWithModel tok post m i = (Except.error e, []) from by
      simp [embedWithModel, ha]] at h
    simp at h
  · rcases hp : post m i with e | data
    · rw [show embedWithModel tok post m i = (Except.error e, [m]) from by
        simp [embedWithModel, ha, hp]] at h
      simp at h
    · rw [show embedWithModel tok post m i = (Except.ok (l2norm (pickVec data)), [m]) from by
        simp [embedWithModel, ha, hp]] at h
      simp only [Prod.mk.injEq, Except.ok.injEq] at h
      exact ⟨pickVec data, h.1.symm⟩

/-- Helper: every successful embedQuery call, through the primary or the
fallback provider, returns an output of l2norm. -/
theorem embedQuery_ok_shape (tok : Option String) (post : PostFn) (pId fId q : String)
    (v : List ℝ) (log : List String)
    (h : embedQuery tok post pId fId q = (Except.ok v, log)) :
    ∃ raw, v = l2norm raw := by
  rcases h1 : embedWithModel tok post pId (formatQueryForEmbedding q pId) with ⟨r1, log1⟩
  rcases r1 with e | v1
  · by_cases hb : fallbackEligible e.responseStatus
    · rcases h2 : embedWithModel tok post fId (formatQueryForEmbedding q fId) with ⟨r2, log2⟩
      rcases r2 with e2 | v2
      · rw [show embedQuery tok post pId fId q = (Except.error e2, log1 ++ log2) from by
          simp [embedQuery, h1, h2, hb]] at h
        simp at h
      · rw [show embedQuery tok post pId fId q = (Except.ok v2, log1 ++ log2) from by
          simp [embedQuery, h1, h2, hb]] at h
        simp only [Prod.mk.injEq, Except.ok.injEq] at h
        obtain ⟨raw, hr⟩ := embedWithModel_ok_shape tok post fId _ v2 log2 h2
        exact ⟨raw, h.1 ▸ hr⟩
    · rw [show embedQuery tok post pId fId q = (Except.error e, log1) from by
        simp [embedQuery, h1, hb]] at h
      simp at h
  · rw [show embedQuery tok post pId fId q = (Except.ok v1, log1) from by
      simp [embedQuery, h1]] at h
    simp only [Prod.mk.injEq, Except.ok.injEq] at h
    obtain ⟨raw, hr⟩ := embedWithModel_ok_shape tok post pId _ v1 log1 h1
    exact ⟨raw, h.1 ▸ hr⟩

/-- Claim C3: every vector returned by the embedding client (primary or
fallback path) is an l2norm output; l2norm maps every vector of nonzero
squared sum to a vector of Euclidean norm 1, and maps every vector of zero
squared sum (in particular the zero vector) to itself without faulting. -/
theorem embedding_vectors_l2_normalized :
    (∀ (tok : Option String) (post : PostFn) (pId fId q : String)
        (v : List ℝ) (log : List String),
      embedQuery tok post pId fId q = (Except.ok v, log) → ∃ raw, v = l2norm raw)
    ∧ (∀ w : List ℝ, sumSq w ≠ 0 →
        sumSq (l2norm w) = 1 ∧ Real.sqrt (sumSq (l2norm w)) = 1)
    ∧ (∀ w : List ℝ, sumSq w = 0 → l2norm w = w) := by
  refine ⟨embedQuery_ok_shape, fun w hw => ?_, fun w h0 => ?_⟩
  · have h0 : 0 ≤ sumSq w := sumSq_nonneg w
    have hpos : 0 < sumSq w := lt_of_le_of_ne h0 (Ne.symm hw)
    have hsq : Real.sqrt (sumSq w) ≠ 0 := ne_of_gt (Real.sqrt_pos.mpr hpos)
    have hmain : sumSq (l2norm w) = 1 := by
      simp only [l2norm]
      rw [if_neg hsq, sumSq_map_div w _ hsq, Real.mul_self_sqrt h0, div_self hw]
    exact ⟨hmain, by rw [hmain, Real.sqrt_one]⟩
  · simp only [l2norm]
    rw [h0, Real.sqrt_zero]
    simp

/-- Witness for claim C3 at the vectors [3, 4] and [0, 0] and a concrete
successful embedding call. -/
theorem embedding_vectors_l2_normalized_witness :
    (sumSq ([3, 4] : List ℝ) ≠ 0
      ∧ sumSq (l2norm [3, 4]) = 1 ∧ Real.sqrt (sumSq (l2norm [3, 4])) = 1)
    ∧ (sumSq ([0, 0] : List ℝ) = 0 ∧ l2norm [0, 0] = [0, 0])
    ∧ (∃ raw, l2norm [3, 4] = l2norm raw) := by
  have h34 : sumSq ([3, 4] : List ℝ) ≠ 0 := by norm_num [sumSq]
  have h00 : sumSq ([0, 0] : List ℝ) = 0 := by norm_num [sumSq]
  exact ⟨⟨h34, (embedding_vectors_l2_normalized.2.1 [3, 4] h34).1,
      (embedding_vectors_l2_normalized.2.1 [3, 4] h34).2⟩,
    ⟨h00, embedding_vectors_l2_normalized.2.2 [0, 0] h00⟩,
    embedding_vectors_l2_normalized.1 (some "t")
      (fun _ _ => Except.ok (HFData.flat [3, 4]))
      EMB_PRIMARY EMB_FALLBACK "hello" (l2norm [3, 4]) [EMB_PRIMARY] rfl⟩

/-! ## Claim C5 -/

/-- Claim C5: once the query embedding succeeds, semanticSearch issues
exactly one backend call with the default filters; a backend error makes it
fail immediately with a plain Error carrying the backend message (and no
response status), while a backend success packages the returned rows (the
empty sequence when the backend returns none) with the requested k, the
embedding-stage latency and the search-stage latency. -/
theorem semanticSearch_backend_error_and_packaging (tok : Option String) (post : PostFn)
    (rpc : RpcFn) (t0 t1 t2 : ℚ) (q : String) (k : Nat) (emb : List ℝ) (elog : List String)
    (hemb : embedQuery tok post EMB_PRIMARY EMB_FALLBACK q = (Except.ok emb, elog)) :
    (∀ err : RpcError,
      (rpc ⟨emb, k, none, none, none, 0, ()⟩).error = some err →
      semanticSearch tok post rpc t0 t1 t2 q k
        = (Except.error ⟨err.message, none⟩, [⟨emb, k, none, none, none, 0, ()⟩]))
    ∧ ((rpc ⟨emb, k, none, none, none, 0, ()⟩).error = none →
      semanticSearch tok post rpc t0 t1 t2 q k
        = (Except.ok ⟨(rpc ⟨emb, k, none, none, none, 0, ()⟩).data.getD [],
              t2 - t1, t1 - t0, k⟩,
            [⟨emb, k, none, none, none, 0, ()⟩])) := by
  constructor
  · intro err herr
    simp [semanticSearch, hemb, herr]
  · intro herr
    simp [semanticSearch, hemb, herr]

/-- Witness for claim C5: a backend failing with a connection-reset message
makes the concrete search fail with exactly that message. -/
theorem semanticSearch_backend_error_witness :
    semanticSearch (some "t") (fun _ _ => Except.ok (HFData.flat [3, 4]))
      (fun _ => ⟨none, some ⟨"connection reset"⟩⟩) 0 1 2 "hello" 5
      = (Except.error ⟨"connection reset", none⟩,
          [⟨l2norm [3, 4], 5, none, none, none, 0, ()⟩]) :=
  (semanticSearch_backend_error_and_packaging (some "t")
    (fun _ _ => Except.ok (HFData.flat [3, 4]))
    (fun _ => ⟨none, some ⟨"connection reset"⟩⟩) 0 1 2 "hello" 5 (l2norm [3, 4])
    [EMB_PRIMARY] rfl).1 ⟨"connection reset"⟩ rfl

/-! ## Claim C6 -/

/-- Claim C6: when retrieval or generation fails during an orchestrated
request, ask appends the failed assistant turn (rather than dropping it),
surfaces the failure as the visible message text, and attaches no citations
to the failed turn. -/
theorem ask_surfaces_failure_as_turn (tok : Option String) (post : PostFn) (rpc : RpcFn)
    (generate : GenFn) (t0 t1 t2 : ℚ) (k : Nat) (q : String) (msgs : List Message)
    (hq : jsTrim q ≠ "") :
    (∀ e : JsError,
      (semanticSearch tok post rpc t0 t1 t2 (jsTrim q) k).1 = Except.error e →
      ask tok post rpc generate t0 t1 t2 k q msgs
        = msgs ++ [⟨Role.user, jsTrim q, none⟩,
            ⟨Role.assistant, "Sorry, something went wrong:\n" ++ errDisplay e, none⟩])
    ∧ (∀ (sr : SearchResult) (e : JsError),
        (semanticSearch tok post rpc t0 t1 t2 (jsTrim q) k).1 = Except.ok sr →
        generate (buildGroundedPrompt (jsTrim q) sr.chunks) = Except.error e →
        ask tok post rpc generate t0 t1 t2 k q msgs
          = msgs ++ [⟨Role.user, jsTrim q, none⟩,
              ⟨Role.assistant, "Sorry, something went wrong:\n" ++ errDisplay e, none⟩]) := by
  constructor
  · intro e hs
    simp [ask, hq, hs]
  · intro sr e hs hg
    simp [ask, hq, hs, hg]

/-- Witness for claim C6: a concrete failing retrieval is appended as a
readable assistant turn with no citations. -/
theorem ask_surfaces_failure_as_turn_witness :
    jsTrim "hi" ≠ ""
    ∧ ask (some "t") (fun _ _ => Except.error ⟨"boom", some 500⟩)
        (fun _ => ⟨none, none⟩) (fun _ => Except.ok "fine") 0 1 2 5 "hi" []
        = [⟨Role.user, "hi", none⟩,
            ⟨Role.assistant, "Sorry, something went wrong:\nboom", none⟩] := by
  have hq : jsTrim "hi" ≠ "" := by decide
  have h := (ask_surfaces_failure_as_turn (some "t")
      (fun _ _ => Except.error ⟨"boom", some 500⟩) (fun _ => ⟨none, none⟩)
      (fun _ => Except.ok "fine") 0 1 2 5 "hi" [] hq).1 ⟨"boom", some 500⟩ rfl
  exact ⟨hq, h.trans rfl⟩

end JioPay
